import Mathlib

/-!
Verification development for the go-gcp-middleware repository: a shallow
embedding of the middleware chain builder (client.go), the middleware units
(CORS, Recovery, RecoverMiddleware), the logger helpers (LogPanic,
LogHTTPRequest) and the telemetry provider (config defaulting, validation,
sampler selection, global initialisation), together with theorems settling
the specification claims.

Machine integers are modelled as `Int`/`Nat`, Go's `float64` sampling ratio
as `ℚ` (the code only compares it against the exact constants 0 and 1, where
rational and IEEE comparison agree), and the request-scoped mutable state
(response writer, active span, emitted log records) as an explicit `World`
value threaded through handlers.  A Go panic is modelled as the `Option
GoValue` component of a handler's result: `some v` means the handler
unwound with panic value `v` after performing the state mutations recorded
in the returned `World`.
-/

/-- Log severity levels of the logger package (Debug/Info/Warn/Error plus the
GCP-specific Critical). -/
inductive Level where
  | debug
  | info
  | warn
  | error
  | critical
deriving DecidableEq, Repr

/-- One structured log record dispatched to the logger backend: severity,
message, and the key/value argument list (values rendered as strings). -/
structure LogRecord where
  level : Level
  msg : String
  args : List (String × String)
deriving DecidableEq, Repr

/-- An inbound HTTP request: method plus header list (the fields the embedded
middleware read). -/
structure Request where
  method : String
  headers : List (String × String)
deriving DecidableEq, Repr

/-- A Go interface value that can travel as a panic payload: a string, an
`*http.Request` (relevant to `RecoverMiddleware`'s type assertion), or the
`*runtime.TypeAssertionError` raised by a failed type assertion. -/
inductive GoValue where
  | str : String → GoValue
  | httpReq : Request → GoValue
  | typeAssertionErr : GoValue
deriving DecidableEq, Repr

/-- Rendering of a panic value by `fmt.Sprintf` with the `v` verb, as the
source does when building error bodies and log fields. -/
def goValueText : GoValue → String
  | .str s => s
  | .httpReq _ => "&http.Request"
  | .typeAssertionErr => "interface conversion: interface is not *http.Request"

/-- The JSON error body built by the `Recovery` middleware
(`map[string]any` with error / code / details keys, as encoded by
`json.NewEncoder(w).Encode`). -/
structure ErrorBody where
  error : String
  code : Int
  panicDetail : String
deriving DecidableEq, Repr

/-- One write made to the response body: either raw bytes or the JSON
encoding of the Recovery error object. -/
inductive BodyChunk where
  | raw : String → BodyChunk
  | jsonError : ErrorBody → BodyChunk
deriving DecidableEq, Repr

/-- Replace the binding of a key in an association list, appending it when
absent (the semantics of `http.Header.Set`). -/
def setAssoc : List (String × String) → String → String → List (String × String)
  | [], k, v => [(k, v)]
  | (k', v') :: t, k, v => if k' = k then (k, v) :: t else (k', v') :: setAssoc t k v

/-- Look a key up in an association list (the semantics of
`http.Header.Get`, returning `none` for a missing key). -/
def getAssoc : List (String × String) → String → Option String
  | [], _ => none
  | (k', v') :: t, k => if k' = k then some v' else getAssoc t k

/-- The observable state of the terminal `http.ResponseWriter` for one
request: headers, the status actually sent (net/http ignores every
`WriteHeader` after the first), and the body writes. -/
structure ResponseState where
  headers : List (String × String)
  status : Option Nat
  wroteHeader : Bool
  body : List BodyChunk
deriving DecidableEq, Repr

/-- Set a response header (`w.Header().Set`). -/
def ResponseState.setHeader (rs : ResponseState) (k v : String) : ResponseState :=
  { rs with headers := setAssoc rs.headers k v }

/-- Send a status code (`w.WriteHeader`): net/http sends only the first
status; a second call is a logged no-op. -/
def ResponseState.writeHeader (rs : ResponseState) (code : Nat) : ResponseState :=
  if rs.wroteHeader then rs
  else { rs with status := some code, wroteHeader := true }

/-- Write to the body (`w.Write`): an implicit `WriteHeader(200)` happens
first when no status has been sent yet. -/
def ResponseState.write (rs : ResponseState) (chunk : BodyChunk) : ResponseState :=
  let rs := if rs.wroteHeader then rs else rs.writeHeader 200
  { rs with body := rs.body ++ [chunk] }

/-- A fresh response writer at the start of a request. -/
def emptyResponse : ResponseState :=
  { headers := [], status := none, wroteHeader := false, body := [] }

/-- The active span carried by the request context: identity (for the
trace/log correlator), validity flag, mutable status, recorded errors,
events and attributes.  When no span is in the context, Go's
`trace.SpanFromContext` returns a no-op span whose mutations are discarded;
that case is the `none` branch of the mutation helpers below. -/
structure SpanData where
  valid : Bool
  traceID : String
  spanID : String
  sampled : Bool
  spanStatus : String
  statusDesc : String
  errors : List String
  events : List (String × List (String × String))
  attrs : List (String × String)
deriving DecidableEq, Repr

/-- A span fresh out of `StartSpan`, before any mutation. -/
def freshSpan : SpanData :=
  { valid := true, traceID := "4bf92f3577b34da6a3ce929d0e0e4736", spanID := "00f067aa0ba902b7",
    sampled := true, spanStatus := "Unset", statusDesc := "", errors := [], events := [],
    attrs := [] }

/-- The per-request mutable world threaded through every handler: the
response writer state, the active span of the request context (if any), the
records emitted through the global logger, and the global logger's
configured project identifier (read by the trace/log correlator). -/
structure World where
  resp : ResponseState
  span : Option SpanData
  log : List LogRecord
  loggerProjectID : String
deriving DecidableEq, Repr

/-- Mutate the active span's status (`span.SetStatus`); a no-op on the no-op
span of a spanless context. -/
def World.spanSetStatus (w : World) (code desc : String) : World :=
  match w.span with
  | none => w
  | some s => { w with span := some { s with spanStatus := code, statusDesc := desc } }

/-- Record an error on the active span (`span.RecordError`); no-op without a
span. -/
def World.spanRecordError (w : World) (e : String) : World :=
  match w.span with
  | none => w
  | some s => { w with span := some { s with errors := s.errors ++ [e] } }

/-- Add an event to the active span (`span.AddEvent`); no-op without a span. -/
def World.spanAddEvent (w : World) (name : String) (attrs : List (String × String)) : World :=
  match w.span with
  | none => w
  | some s => { w with span := some { s with events := s.events ++ [(name, attrs)] } }

/-- Set an attribute on the active span (`span.SetAttributes`); no-op
without a span. -/
def World.spanSetAttribute (w : World) (k v : String) : World :=
  match w.span with
  | none => w
  | some s => { w with span := some { s with attrs := s.attrs ++ [(k, v)] } }

/-- Append one record to the global logger's output. -/
def logEmit (w : World) (lv : Level) (msg : String) (args : List (String × String)) : World :=
  { w with log := w.log ++ [{ level := lv, msg := msg, args := args }] }

/-- An HTTP handler in the shallow embedding: it consumes the request and
the current world and produces the mutated world together with the panic
value it unwound with, if any (`none` means a normal return). -/
def Handler : Type := Request → World → World × Option GoValue

/-- A middleware unit: a decorator from handler to handler, exactly the
`func(http.Handler) http.Handler` values stored by `MiddlewareChain`. -/
def Middleware : Type := Handler → Handler

/-- Embeds the `MiddlewareChain` struct of client.go: the ordered decorator
list. -/
structure MiddlewareChain where
  middlewares : List Middleware

/-- Embeds `NewChain`: build a chain from the given decorators in order. -/
def NewChain (middlewares : List Middleware) : MiddlewareChain :=
  { middlewares := middlewares }

/-- Embeds `MiddlewareChain.Then`: the Go loop runs `i` from the last index
down to `0`, each step replacing `handler` by `middlewares[i](handler)`; that
is a left fold over the reversed list. -/
def MiddlewareChain.Then (mc : MiddlewareChain) (handler : Handler) : Handler :=
  mc.middlewares.reverse.foldl (fun h m => m h) handler

/-- Embeds `MiddlewareChain.ThenFunc`: converts the function to a handler
and delegates to `Then`. -/
def MiddlewareChain.ThenFunc (mc : MiddlewareChain) (handlerFunc : Handler) : Handler :=
  mc.Then handlerFunc

/-- Embeds `MiddlewareChain.Append`: extends the decorator list at the end. -/
def MiddlewareChain.Append (mc : MiddlewareChain) (more : List Middleware) : MiddlewareChain :=
  { middlewares := mc.middlewares ++ more }

/-- Placeholder for the text of `runtime/debug.Stack()` (an external runtime
collaborator; its exact contents are opaque to every claim). -/
def stackTraceText : String := "goroutine 1 ... stack trace"

/-- Embeds `addTraceContext` of logger.go: when the context carries a valid
span, append the standard trace correlation fields, plus the GCP deep-link
fields when a project identifier is configured. -/
def addTraceContext (w : World) (projectID : String) (args : List (String × String)) :
    List (String × String) :=
  match w.span with
  | none => args
  | some s =>
    if s.valid then
      let boolText := fun (b : Bool) => if b then "true" else "false"
      let args := args ++
        [("trace_id", s.traceID), ("span_id", s.spanID), ("trace_sampled", boolText s.sampled)]
      if projectID = "" then args
      else args ++
        [("logging.googleapis.com/trace",
            "projects/" ++ projectID ++ "/traces/" ++ s.traceID),
         ("logging.googleapis.com/spanId", s.spanID),
         ("logging.googleapis.com/trace_sampled", boolText s.sampled)]
    else args

/-- Embeds `Logger.LogPanic` of logger.go.  The `recovered` argument is the
value returned by the `recover()` call inside `LogPanic` at this call site:
by the Go specification, `recover` returns the panic value only when invoked
directly by a deferred function while its goroutine is panicking, and
returns nil otherwise — in particular when an enclosing deferred function
has already recovered the panic.  On a captured panic the helper builds the
panic fields, adds trace correlation, marks the active span failed, records
the error on it, logs at Critical, and re-panics: the second component of
the result is the panic value escaping `LogPanic`. -/
def LogPanic (recovered : Option GoValue) (w : World) : World × Option GoValue :=
  match recovered with
  | none => (w, none)
  | some v =>
    let logArgs := [("panic.value", goValueText v), ("panic.stack_trace", stackTraceText)]
    let logArgs := addTraceContext w w.loggerProjectID logArgs
    let w := w.spanSetStatus "Error" "panic recovered"
    let w := w.spanRecordError ("panic: " ++ goValueText v)
    let w := logEmit w .critical "Panic recovered" logArgs
    (w, some v)

/-- Embeds the level-selection policy of `Logger.LogHTTPRequest` in
logger.go: start from Info, escalate to Error for status ≥ 500 and to Warn
for status ≥ 400. -/
def logHTTPRequestLevel (statusCode : Int) : Level :=
  if statusCode ≥ 500 then .error
  else if statusCode ≥ 400 then .warn
  else .info

/-- Embeds the message selection of `Logger.LogHTTPRequest`, bucketed the
same way as the level. -/
def logHTTPRequestMsg (statusCode : Int) : String :=
  if statusCode ≥ 500 then "HTTP request failed"
  else if statusCode ≥ 400 then "HTTP request client error"
  else "HTTP request completed"

/-- Embeds the `Recovery` middleware of middleware.go.  The deferred block's
own `recover()` consumes the panic; it then marks the span failed and
records the panic on it, calls `logger.Global().LogPanic(r.Context())` —
whose internal `recover()` returns nil here because the panic has already
been recovered by this deferred block — and writes the JSON 500 error
response. -/
def Recovery (next : Handler) : Handler := fun req w =>
  match next req w with
  | (w', none) => (w', none)
  | (w', some v) =>
    let w1 := w'.spanSetStatus "Error" "panic recovered"
    let w2 := w1.spanRecordError ("panic: " ++ goValueText v)
    match LogPanic none w2 with
    | (w3, some v') => (w3, some v')
    | (w3, none) =>
      let w4 := { w3 with resp := (w3.resp.setHeader "Content-Type" "application/json").writeHeader 500 }
      let body := BodyChunk.jsonError
        { error := "Internal server error", code := 500, panicDetail := goValueText v }
      ({ w4 with resp := w4.resp.write body }, none)

/-- The permissive CORS header set written by the `CORS` middleware. -/
def corsHeaderWrites (rs : ResponseState) : ResponseState :=
  ((((rs.setHeader "Access-Control-Allow-Origin" "*").setHeader
      "Access-Control-Allow-Methods" "GET, POST, PUT, DELETE, OPTIONS").setHeader
      "Access-Control-Allow-Headers"
      "Accept, Content-Type, Content-Length, Accept-Encoding, X-CSRF-Token, Authorization, X-User-Email, X-User-Groups").setHeader
      "Access-Control-Allow-Credentials" "true").setHeader
      "Access-Control-Max-Age" "86400"

/-- The part of the `CORS` middleware that runs on every request before the
preflight branch: add the cors.processing span event and set the permissive
headers. -/
def corsPre (req : Request) (w : World) : World :=
  let w := w.spanAddEvent "cors.processing"
    [("cors.origin", (getAssoc req.headers "Origin").getD ""), ("cors.method", req.method)]
  { w with resp := corsHeaderWrites w.resp }

/-- Embeds the `CORS` middleware of middleware.go: add the cors.processing
span event, set the permissive headers, short-circuit preflight OPTIONS
requests with 204 (marking the span) without invoking downstream layers,
otherwise call the next handler. -/
def CORS (next : Handler) : Handler := fun req w =>
  let w := corsPre req w
  if req.method = "OPTIONS" then
    let w2 := { w with resp := (w.resp.setHeader "Content-Type" "text/plain").writeHeader 204 }
    (w2.spanSetAttribute "cors.preflight" "true", none)
  else
    next req w

/-- Embeds `http.Error` of net/http (external collaborator): set the plain
text headers, send the status, write the message plus newline. -/
def httpErrorWrite (rs : ResponseState) (msg : String) (code : Nat) : ResponseState :=
  ((((rs.setHeader "Content-Type" "text/plain; charset=utf-8").setHeader
      "X-Content-Type-Options" "nosniff").writeHeader code).write
      (BodyChunk.raw (msg ++ "\n")))

/-- Embeds `RecoverMiddleware` of helpers/http.go.  Inside its deferred
block the local `r := recover()` shadows the request, so `r.(*http.Request)`
type-asserts the recovered panic value: when the panic value is an
`*http.Request` the block proceeds (LogPanic — a no-op here since the panic
is already recovered — then `http.Error` with status 500); for any other
panic value the type assertion itself panics with a runtime type-assertion
error, so nothing is written and a panic escapes the middleware. -/
def RecoverMiddleware (next : Handler) : Handler := fun req w =>
  match next req w with
  | (w', none) => (w', none)
  | (w', some v) =>
    match v with
    | GoValue.httpReq _ =>
      match LogPanic none w' with
      | (w1, some v') => (w1, some v')
      | (w1, none) =>
        ({ w1 with resp := httpErrorWrite w1.resp "Internal Server Error" 500 }, none)
    | _ => (w', some GoValue.typeAssertionErr)

namespace Telemetry

/-- The process environment as seen by `os.Getenv`: unset variables read as
the empty string. -/
def Env : Type := String → String

/-- Embeds the telemetry `Config` struct of tracing.go; durations are
nanosecond counts, the sampling ratio is a rational, and the attribute map
is `none` for a nil Go map. -/
structure Config where
  ServiceName : String := ""
  ServiceVersion : String := ""
  Environment : String := ""
  ProjectID : String := ""
  EnableTracing : Bool := false
  EnableMetrics : Bool := false
  TraceRatio : ℚ := 0
  EnableDebug : Bool := false
  ExportTimeout : Int := 0
  BatchTimeout : Int := 0
  MaxBatchSize : Int := 0
  MaxQueueSize : Int := 0
  Attributes : Option (List (String × String)) := none
deriving DecidableEq, Repr

/-- Embeds `Config.SetDefaults` of tracing.go: every zero-valued field is
replaced by its default, with the environment and project identifier pulled
from the ENVIRONMENT / GOOGLE_CLOUD_PROJECT / GCP_PROJECT environment
variables.  The source is a sequence of `if` statements; each guard reads
only the field its own branch assigns and no other statement writes, so the
sequence equals this simultaneous record update. -/
def Config.SetDefaults (env : Env) (c : Config) : Config :=
  { c with
    ServiceName := if c.ServiceName = "" then "default-service" else c.ServiceName
    ServiceVersion := if c.ServiceVersion = "" then "1.0.0" else c.ServiceVersion
    Environment :=
      if c.Environment = "" then
        if env "ENVIRONMENT" = "" then "production" else env "ENVIRONMENT"
      else c.Environment
    TraceRatio := if c.TraceRatio = 0 then mkRat 1 10 else c.TraceRatio
    ProjectID :=
      if c.ProjectID = "" then
        if env "GOOGLE_CLOUD_PROJECT" = "" then env "GCP_PROJECT" else env "GOOGLE_CLOUD_PROJECT"
      else c.ProjectID
    ExportTimeout := if c.ExportTimeout = 0 then 30000000000 else c.ExportTimeout
    BatchTimeout := if c.BatchTimeout = 0 then 5000000000 else c.BatchTimeout
    MaxBatchSize := if c.MaxBatchSize = 0 then 512 else c.MaxBatchSize
    MaxQueueSize := if c.MaxQueueSize = 0 then 2048 else c.MaxQueueSize
    Attributes := match c.Attributes with | none => some [] | some a => some a }

/-- Embeds `Config.Validate` of tracing.go: the checks run in source order
and the first failing one produces the error. -/
def Config.Validate (c : Config) : Except String Unit :=
  if c.ServiceName = "" then .error "ServiceName is required"
  else if c.EnableTracing = true ∧ c.ProjectID = "" then
    .error "ProjectID is required when tracing is enabled"
  else if c.TraceRatio < 0 ∨ c.TraceRatio > 1 then
    .error "TraceRatio must be between 0.0 and 1.0"
  else if c.MaxBatchSize ≤ 0 then .error "MaxBatchSize must be positive"
  else if c.MaxQueueSize ≤ 0 then .error "MaxQueueSize must be positive"
  else .ok ()

/-- The sampler installed on the tracer provider (the three shapes used by
`setupTracing`). -/
inductive Sampler where
  | alwaysSample
  | neverSample
  | traceIDRatioBased (ratio : ℚ)
deriving DecidableEq, Repr

/-- Embeds the sampler selection of `Provider.setupTracing`: ratio ≥ 1.0
installs AlwaysSample, ratio ≤ 0.0 installs NeverSample, anything in
between installs the trace-identifier-ratio sampler. -/
def samplerFor (ratio : ℚ) : Sampler :=
  if ratio ≥ 1 then .alwaysSample
  else if ratio ≤ 0 then .neverSample
  else .traceIDRatioBased ratio

/-- Sampling decision of the installed sampler on a trace whose identifier
has the given numeric value.  AlwaysSample and NeverSample are constant;
the ratio-based decision models the OpenTelemetry SDK collaborator, which
compares the low 63 bits of the trace identifier against ratio·2⁶³ so that
a given trace's decision is reproducible (written here as the equivalent
cross-multiplied integer comparison, the denominator being positive). -/
def Sampler.shouldSample : Sampler → Nat → Bool
  | .alwaysSample, _ => true
  | .neverSample, _ => false
  | .traceIDRatioBased r, tid =>
      decide ((((tid % 9223372036854775808 : Nat) : Int)) * (r.den : Int)
        < r.num * 9223372036854775808)

/-- Embeds the telemetry `Provider`: the defaulted configuration it was
built from, plus the sampler installed on its tracer provider (`none` when
tracing is disabled and no tracer provider is set up). -/
structure Provider where
  config : Config
  sampler : Option Sampler
deriving DecidableEq, Repr

/-- Embeds `NewProvider` of tracing.go: `SetDefaults` runs first, then
`Validate`; when tracing is enabled `setupTracing` installs the sampler
chosen from the (defaulted) ratio.  The Google Cloud Trace exporter is an
external collaborator modelled as always constructible, so the only failure
path is validation. -/
def NewProvider (env : Env) (cfg : Config) : Except String Provider :=
  let c := cfg.SetDefaults env
  match c.Validate with
  | .error e => .error ("invalid telemetry config: " ++ e)
  | .ok _ =>
    if c.EnableTracing then .ok { config := c, sampler := some (samplerFor c.TraceRatio) }
    else .ok { config := c, sampler := none }

/-- Embeds `InitGlobal` of tracing.go with the package-level `globalProvider`
variable passed as explicit state: construct a provider and, on success,
store it unconditionally (there is no once-guard in the source). -/
def InitGlobal (env : Env) (globalProvider : Option Provider) (cfg : Config) :
    Except String Unit × Option Provider :=
  match NewProvider env cfg with
  | .error e => (.error e, globalProvider)
  | .ok p => (.ok (), some p)

end Telemetry

/-- Which steps `Client.Shutdown` executed and what it returned. -/
structure ShutdownTrace where
  result : Option String
  telemetryShutdownAttempted : Bool
  loggerCloseAttempted : Bool
deriving DecidableEq, Repr

/-- Embeds `Logger.Close` of logger.go: it has no resources to release and
always returns nil. -/
def loggerClose : Option String := none

/-- Embeds `Client.Shutdown` of client.go: shut down telemetry first when
present, returning immediately with a wrapped error if that fails; only
then close the logger.  `telemetryShutdownError` is the result of the
telemetry collaborator's flush (`Provider.Shutdown`). -/
def clientShutdown (hasTelemetry : Bool) (telemetryShutdownError : Option String) :
    ShutdownTrace :=
  if hasTelemetry then
    match telemetryShutdownError with
    | some e =>
      { result := some ("failed to shutdown telemetry: " ++ e),
        telemetryShutdownAttempted := true, loggerCloseAttempted := false }
    | none =>
      match loggerClose with
      | some e =>
        { result := some ("failed to close logger: " ++ e),
          telemetryShutdownAttempted := true, loggerCloseAttempted := true }
      | none =>
        { result := none, telemetryShutdownAttempted := true, loggerCloseAttempted := true }
  else
    match loggerClose with
    | some e =>
      { result := some ("failed to close logger: " ++ e),
        telemetryShutdownAttempted := false, loggerCloseAttempted := true }
    | none =>
      { result := none, telemetryShutdownAttempted := false, loggerCloseAttempted := true }

/-- An instrumented no-op decorator (the verification harness the claim
asks for): it records a pre event, calls the next handler, and records a
post event on normal return. -/
def instrument (name : String) : Middleware := fun next req w =>
  let w1 := logEmit w .info (name ++ ":pre") []
  match next req w1 with
  | (w2, none) => (logEmit w2 .info (name ++ ":post") [], none)
  | (w2, some v) => (w2, some v)

/-- A terminal handler that records the given messages and returns. -/
def terminalHandler (msgs : List String) : Handler := fun _ w =>
  ({ w with log := w.log ++ msgs.map (fun m => { level := .info, msg := m, args := [] }) }, none)

/-- The pre-hook records of a list of instrumented decorators, in order. -/
def preRecords (names : List String) : List LogRecord :=
  names.map (fun n => { level := .info, msg := n ++ ":pre", args := [] })

/-- The post-hook records of a list of instrumented decorators, in order. -/
def postRecords (names : List String) : List LogRecord :=
  names.map (fun n => { level := .info, msg := n ++ ":post", args := [] })

/-- The records emitted by a terminal handler for its message list. -/
def msgRecords (msgs : List String) : List LogRecord :=
  msgs.map (fun m => { level := .info, msg := m, args := [] })

/-- An empty process environment (every variable unset). -/
def env0 : Telemetry.Env := fun _ => ""

/-- A plain GET request with no headers. -/
def req0 : Request := { method := "GET", headers := [] }

/-- A preflight OPTIONS request with an Origin header. -/
def reqOptions : Request :=
  { method := "OPTIONS", headers := [("Origin", "https://example.com")] }

/-- The world at the start of a request handled without an active span. -/
def world0 : World :=
  { resp := emptyResponse, span := none, log := [], loggerProjectID := "" }

/-- The world at the start of a request with an active span in its context. -/
def worldWithSpan : World :=
  { resp := emptyResponse, span := some freshSpan, log := [], loggerProjectID := "" }

/-- A handler that immediately panics with the string "test panic" (the
panicking handler of the repository's own Recovery test). -/
def panicTestHandler : Handler := fun _ w => (w, some (GoValue.str "test panic"))

/-- A handler that writes a 200 response body and then panics. -/
def writeThenPanicHandler : Handler := fun _ w =>
  ({ w with resp := (w.resp.writeHeader 200).write (BodyChunk.raw "success") },
    some (GoValue.str "test panic"))

/-- A telemetry configuration naming service svc-a, tracing disabled. -/
def cfgA : Telemetry.Config := { ServiceName := "svc-a" }

/-- A telemetry configuration naming service svc-b, tracing disabled. -/
def cfgB : Telemetry.Config := { ServiceName := "svc-b" }

/-- The provider `NewProvider` builds from `cfgA`. -/
def provA : Telemetry.Provider :=
  { config := cfgA.SetDefaults env0, sampler := none }

/-- The provider `NewProvider` builds from `cfgB`. -/
def provB : Telemetry.Provider :=
  { config := cfgB.SetDefaults env0, sampler := none }

/-- A valid tracing-enabled configuration with sampling ratio 0. -/
def cfgRatio0 : Telemetry.Config :=
  { ServiceName := "svc", ProjectID := "proj", EnableTracing := true, TraceRatio := 0 }

/-- The provider `NewProvider` builds from `cfgRatio0`: the ratio has been
silently defaulted to 0.1 and a trace-identifier-ratio sampler installed. -/
def pRatio0 : Telemetry.Provider :=
  { config := cfgRatio0.SetDefaults env0,
    sampler := some (Telemetry.Sampler.traceIDRatioBased (mkRat 1 10)) }

/-- A valid tracing-enabled configuration with sampling ratio 1. -/
def cfgRatio1 : Telemetry.Config :=
  { ServiceName := "svc", ProjectID := "proj", EnableTracing := true, TraceRatio := 1 }

/-- The provider `NewProvider` builds from `cfgRatio1`. -/
def pRatio1 : Telemetry.Provider :=
  { config := cfgRatio1.SetDefaults env0, sampler := some Telemetry.Sampler.alwaysSample }

/-- A tracing-enabled configuration that is valid except for its zero
(non-positive) batch size. -/
def cfgZeroBatch : Telemetry.Config :=
  { ServiceName := "svc", ProjectID := "proj", EnableTracing := true, TraceRatio := 1,
    MaxBatchSize := 0 }

/-- The provider `NewProvider` builds from `cfgZeroBatch`: the zero batch
size has been silently defaulted to 512. -/
def pZeroBatch : Telemetry.Provider :=
  { config := cfgZeroBatch.SetDefaults env0, sampler := some Telemetry.Sampler.alwaysSample }

/-- A configuration whose sampling ratio 2 lies outside the unit interval. -/
def cfgRatio2 : Telemetry.Config :=
  { ServiceName := "svc", ProjectID := "proj", EnableTracing := true, TraceRatio := 2 }

/-- The reverse-index loop of `Then` is a right fold over the declaration
order. -/
theorem mcThen_eq_foldr (mc : MiddlewareChain) (h : Handler) :
    mc.Then h = mc.middlewares.foldr (fun m acc => m acc) h := by
  unfold MiddlewareChain.Then
  rw [List.foldl_reverse]

/-- Peeling the first-declared decorator off a chain: it becomes the
outermost wrapper. -/
theorem mcThen_cons (m : Middleware) (ms : List Middleware) (h : Handler) :
    (NewChain (m :: ms)).Then h = m ((NewChain ms).Then h) := by
  rw [mcThen_eq_foldr, mcThen_eq_foldr]
  rfl

/-- Unfolding one application of an instrumented decorator. -/
theorem instrument_apply (name : String) (next : Handler) (req : Request) (w : World) :
    instrument name next req w =
      match next req (logEmit w .info (name ++ ":pre") []) with
      | (w2, none) => (logEmit w2 .info (name ++ ":post") [], none)
      | (w2, some v) => (w2, some v) := rfl

/-- Running a chain of instrumented decorators appends the pre events in
declaration order, then the terminal handler's events, then the post events
in reverse declaration order. -/
theorem then_instrument_run (names ts : List String) (req : Request) (w : World) :
    (NewChain (names.map instrument)).Then (terminalHandler ts) req w
      = ({ w with log := w.log ++ preRecords names ++ msgRecords ts
            ++ postRecords names.reverse }, none) := by
  induction names generalizing w with
  | nil =>
    simp [MiddlewareChain.Then, NewChain, terminalHandler, preRecords, postRecords, msgRecords]
  | cons n rest ih =>
    rw [List.map_cons, mcThen_cons, instrument_apply, ih (logEmit w .info (n ++ ":pre") [])]
    simp [logEmit, preRecords, postRecords, msgRecords, List.append_assoc]

/-- Setting a header does not touch the other response writer fields. -/
@[simp] theorem setHeader_wroteHeader (rs : ResponseState) (k v : String) :
    (rs.setHeader k v).wroteHeader = rs.wroteHeader := rfl

/-- Setting a header updates the header association list. -/
@[simp] theorem setHeader_headers (rs : ResponseState) (k v : String) :
    (rs.setHeader k v).headers = setAssoc rs.headers k v := rfl

/-- Setting a header does not change the sent status. -/
@[simp] theorem setHeader_status (rs : ResponseState) (k v : String) :
    (rs.setHeader k v).status = rs.status := rfl

/-- Setting a header does not change the body. -/
@[simp] theorem setHeader_body (rs : ResponseState) (k v : String) :
    (rs.setHeader k v).body = rs.body := rfl

/-- Sending a status never changes the headers. -/
@[simp] theorem writeHeader_headers (rs : ResponseState) (c : Nat) :
    (rs.writeHeader c).headers = rs.headers := by
  unfold ResponseState.writeHeader
  split <;> rfl

/-- Sending a status never changes the body. -/
@[simp] theorem writeHeader_body (rs : ResponseState) (c : Nat) :
    (rs.writeHeader c).body = rs.body := by
  unfold ResponseState.writeHeader
  split <;> rfl

/-- After any `WriteHeader` a header has been written. -/
@[simp] theorem writeHeader_wroteHeader (rs : ResponseState) (c : Nat) :
    (rs.writeHeader c).wroteHeader = true := by
  unfold ResponseState.writeHeader
  split <;> simp_all

/-- The first `WriteHeader` on a fresh writer sends its code. -/
theorem writeHeader_status_of_fresh (rs : ResponseState) (c : Nat)
    (h : rs.wroteHeader = false) : (rs.writeHeader c).status = some c := by
  simp [ResponseState.writeHeader, h]

/-- Span status mutation does not touch the response writer. -/
@[simp] theorem spanSetStatus_resp (w : World) (c d : String) :
    (w.spanSetStatus c d).resp = w.resp := by
  unfold World.spanSetStatus
  cases w.span <;> rfl

/-- Span status mutation does not touch the log. -/
@[simp] theorem spanSetStatus_log (w : World) (c d : String) :
    (w.spanSetStatus c d).log = w.log := by
  unfold World.spanSetStatus
  cases w.span <;> rfl

/-- Span status mutation does not touch the logger configuration. -/
@[simp] theorem spanSetStatus_loggerProjectID (w : World) (c d : String) :
    (w.spanSetStatus c d).loggerProjectID = w.loggerProjectID := by
  unfold World.spanSetStatus
  cases w.span <;> rfl

/-- Span error recording does not touch the response writer. -/
@[simp] theorem spanRecordError_resp (w : World) (e : String) :
    (w.spanRecordError e).resp = w.resp := by
  unfold World.spanRecordError
  cases w.span <;> rfl

/-- Span error recording does not touch the log. -/
@[simp] theorem spanRecordError_log (w : World) (e : String) :
    (w.spanRecordError e).log = w.log := by
  unfold World.spanRecordError
  cases w.span <;> rfl

/-- Span event recording does not touch the response writer. -/
@[simp] theorem spanAddEvent_resp (w : World) (n : String) (a : List (String × String)) :
    (w.spanAddEvent n a).resp = w.resp := by
  unfold World.spanAddEvent
  cases w.span <;> rfl

/-- Span attribute recording does not touch the response writer. -/
@[simp] theorem spanSetAttribute_resp (w : World) (k v : String) :
    (w.spanSetAttribute k v).resp = w.resp := by
  unfold World.spanSetAttribute
  cases w.span <;> rfl

/-- Looking up the key just set finds its new value. -/
theorem getAssoc_setAssoc (l : List (String × String)) (k v : String) :
    getAssoc (setAssoc l k v) k = some v := by
  induction l with
  | nil => simp [setAssoc, getAssoc]
  | cons p t ih =>
    rcases p with ⟨k', v'⟩
    by_cases h : k' = k
    · simp [setAssoc, getAssoc, h]
    · simp [setAssoc, getAssoc, h, ih]

/-- Setting one key leaves lookups of every other key unchanged. -/
theorem getAssoc_setAssoc_ne {l : List (String × String)} {k' k v : String} (h : k' ≠ k) :
    getAssoc (setAssoc l k' v) k = getAssoc l k := by
  induction l with
  | nil => simp [setAssoc, getAssoc, h]
  | cons p t ih =>
    rcases p with ⟨k'', v''⟩
    by_cases h2 : k'' = k'
    · subst h2
      simp [setAssoc, getAssoc, h]
    · by_cases h3 : k'' = k
      · simp [setAssoc, getAssoc, h2, h3, Ne.symm h]
      · simp [setAssoc, getAssoc, h2, h3, ih]

/-- C1: for every middleware chain built from decorators declared in order
(via NewChain and/or Append) and every terminal handler, the handler
composed by Then/ThenFunc executes the pre-hooks in declaration order
(earlier-declared decorators first), then the terminal handler, then the
post-hooks in reverse declaration order — the LIFO/onion semantics obtained
by folding the decorator list in reverse declaration order. -/
theorem chain_onion_order (l1 l2 ts : List String) (req : Request) (w : World) :
    (((NewChain (l1.map instrument)).Append (l2.map instrument)).Then (terminalHandler ts)) req w
        = ({ w with log := w.log ++ preRecords (l1 ++ l2) ++ msgRecords ts
              ++ postRecords (l1 ++ l2).reverse }, none)
      ∧ ((NewChain (l1.map instrument)).Append (l2.map instrument)).ThenFunc (terminalHandler ts)
          = ((NewChain (l1.map instrument)).Append (l2.map instrument)).Then (terminalHandler ts) := by
  constructor
  · have hsplit : (NewChain (l1.map instrument)).Append (l2.map instrument)
        = NewChain ((l1 ++ l2).map instrument) := by
      simp [NewChain, MiddlewareChain.Append, List.map_append]
    rw [hsplit, then_instrument_run]
  · rfl

/-- C4 counterexample: two successive successful calls of the telemetry
`InitGlobal` with different configurations both succeed, and the second one
replaces the stored global provider (the provider built from svc-b differs
from the one built from svc-a), contradicting first-call-wins semantics. -/
theorem telemetry_initglobal_counterexample :
    Telemetry.InitGlobal env0 none cfgA = (Except.ok (), some provA)
    ∧ Telemetry.InitGlobal env0 (some provA) cfgB = (Except.ok (), some provB)
    ∧ provB ≠ provA := by
  refine ⟨rfl, rfl, by decide⟩

/-- C4 (amended): the telemetry package-level provider has last-call-wins
semantics: every successful `InitGlobal` call replaces the current global
provider with the provider freshly built from its own configuration,
regardless of whether a global provider was already installed. -/
theorem telemetry_initglobal_last_wins (env : Telemetry.Env) (g : Option Telemetry.Provider)
    (cfg : Telemetry.Config) (p : Telemetry.Provider)
    (hok : Telemetry.NewProvider env cfg = Except.ok p) :
    Telemetry.InitGlobal env g cfg = (Except.ok (), some p) := by
  unfold Telemetry.InitGlobal
  rw [hok]

/-- C4 witness: the amended theorem applied at the concrete second call. -/
theorem telemetry_initglobal_last_wins_witness :
    Telemetry.InitGlobal env0 (some provA) cfgB = (Except.ok (), some provB) :=
  telemetry_initglobal_last_wins env0 (some provA) cfgB provB rfl

/-- C5 counterexample: when the telemetry shutdown fails, `Client.Shutdown`
returns the telemetry error immediately and the logger close step is never
attempted, contradicting the claim that every remaining step still runs. -/
theorem client_shutdown_counterexample :
    (clientShutdown true (some "flush failed")).loggerCloseAttempted = false
    ∧ (clientShutdown true (some "flush failed")).result
        = some "failed to shutdown telemetry: flush failed" :=
  ⟨rfl, rfl⟩

/-- C5 (amended): `Client.Shutdown` aborts on the first failure: a failing
telemetry shutdown is surfaced as the returned (wrapped) error and the
logger close is skipped; the logger close runs only when the telemetry
shutdown succeeds or telemetry is absent. -/
theorem client_shutdown_amended (e : String) :
    clientShutdown true (some e)
        = { result := some ("failed to shutdown telemetry: " ++ e),
            telemetryShutdownAttempted := true, loggerCloseAttempted := false }
    ∧ clientShutdown true none
        = { result := none, telemetryShutdownAttempted := true, loggerCloseAttempted := true }
    ∧ clientShutdown false none
        = { result := none, telemetryShutdownAttempted := false, loggerCloseAttempted := true } :=
  ⟨rfl, rfl, rfl⟩

/-- C7: `LogHTTPRequest` selects the level by status bucket: status ≥ 500
logs at Error, 400 ≤ status < 500 logs at Warn, and every other status logs
at Info. -/
theorem log_http_request_level_buckets (s : Int) :
    (s ≥ 500 → logHTTPRequestLevel s = Level.error)
    ∧ (400 ≤ s ∧ s < 500 → logHTTPRequestLevel s = Level.warn)
    ∧ (s < 400 → logHTTPRequestLevel s = Level.info) := by
  refine ⟨fun h => ?_, fun h => ?_, fun h => ?_⟩ <;>
    simp only [logHTTPRequestLevel] <;>
    split_ifs <;>
    first
      | rfl
      | (exfalso; omega)

/-- C7 witness: the bucket boundaries 399, 400, 499 and 500. -/
theorem log_http_request_level_buckets_witness :
    logHTTPRequestLevel 399 = Level.info
    ∧ logHTTPRequestLevel 400 = Level.warn
    ∧ logHTTPRequestLevel 499 = Level.warn
    ∧ logHTTPRequestLevel 500 = Level.error :=
  ⟨(log_http_request_level_buckets 399).2.2 (by decide),
   (log_http_request_level_buckets 400).2.1 (by decide),
   (log_http_request_level_buckets 499).2.1 (by decide),
   (log_http_request_level_buckets 500).1 (by decide)⟩

/-- C10: in the helpers package's `RecoverMiddleware`, the deferred recovery
block type-asserts the recovered value to an `*http.Request`; for every
panic whose value is not an `*http.Request` the assertion itself panics, so
the middleware returns the handler's response state untouched (no 500 is
written) and a panic escapes the middleware boundary. -/
theorem recover_middleware_type_assert (next : Handler) (req : Request) (w w' : World)
    (v : GoValue) (hrun : next req w = (w', some v))
    (hnotreq : ∀ r, v ≠ GoValue.httpReq r) :
    RecoverMiddleware next req w = (w', some GoValue.typeAssertionErr) := by
  unfold RecoverMiddleware
  rw [hrun]
  cases v with
  | str s => rfl
  | httpReq r => exact absurd rfl (hnotreq r)
  | typeAssertionErr => rfl

/-- C10 witness: a handler panicking with a string value. -/
theorem recover_middleware_type_assert_witness :
    RecoverMiddleware panicTestHandler req0 world0 = (world0, some GoValue.typeAssertionErr) :=
  recover_middleware_type_assert panicTestHandler req0 world0 world0
    (GoValue.str "test panic") rfl (fun _ h => GoValue.noConfusion h)

/-- Unfolding `Recovery` on a panicking handler: the deferred block marks
the span, calls LogPanic (whose recover returns nil here), and writes the
JSON 500 response. -/
theorem recovery_apply_panic (next : Handler) (req : Request) (w w' : World) (v : GoValue)
    (hrun : next req w = (w', some v)) :
    Recovery next req w =
      (let w2 := (w'.spanSetStatus "Error" "panic recovered").spanRecordError
          ("panic: " ++ goValueText v)
       let w4 := { w2 with
          resp := (w2.resp.setHeader "Content-Type" "application/json").writeHeader 500 }
       ({ w4 with resp := w4.resp.write (BodyChunk.jsonError
          { error := "Internal server error", code := 500,
            panicDetail := goValueText v }) }, none)) := by
  unfold Recovery
  rw [hrun]
  rfl

/-- C2 counterexample: a handler that writes a 200 response body and then
panics; through Recovery the observed status stays 200 — not 500 — because
net/http ignores the second WriteHeader, refuting the claim as stated for
every panicking handler. -/
theorem recovery_already_written_counterexample :
    (writeThenPanicHandler req0 world0).2 = some (GoValue.str "test panic")
    ∧ (Recovery writeThenPanicHandler req0 world0).1.resp.status = some 200
    ∧ (Recovery writeThenPanicHandler req0 world0).1.resp.status ≠ some 500
    ∧ (Recovery writeThenPanicHandler req0 world0).1.resp.body
        = [BodyChunk.raw "success",
           BodyChunk.jsonError
             { error := "Internal server error", code := 500, panicDetail := "test panic" }] := by
  refine ⟨rfl, rfl, by decide, rfl⟩

/-- C2 (amended): for every request whose handler panics before writing any
response header, a chain containing Recovery yields exactly status 500 with
application/json content type and a body that is the JSON error object with
numeric code field 500; and the panic never escapes the Recovery boundary. -/
theorem recovery_panic_amended (next : Handler) (req : Request) (w w' : World) (v : GoValue)
    (hrun : next req w = (w', some v)) (hclean : w'.resp.wroteHeader = false) :
    (Recovery next req w).2 = none
    ∧ (Recovery next req w).1.resp.status = some 500
    ∧ getAssoc (Recovery next req w).1.resp.headers "Content-Type" = some "application/json"
    ∧ (Recovery next req w).1.resp.body
        = w'.resp.body ++ [BodyChunk.jsonError
            { error := "Internal server error", code := 500,
              panicDetail := goValueText v }] := by
  rw [recovery_apply_panic next req w w' v hrun]
  refine ⟨rfl, ?_, ?_, ?_⟩ <;>
    simp [ResponseState.write, ResponseState.writeHeader, hclean, getAssoc_setAssoc]

/-- C2 witness: the amended theorem at a handler that panics immediately. -/
theorem recovery_panic_amended_witness :
    (Recovery panicTestHandler req0 world0).2 = none
    ∧ (Recovery panicTestHandler req0 world0).1.resp.status = some 500
    ∧ getAssoc (Recovery panicTestHandler req0 world0).1.resp.headers "Content-Type"
        = some "application/json"
    ∧ (Recovery panicTestHandler req0 world0).1.resp.body
        = world0.resp.body ++ [BodyChunk.jsonError
            { error := "Internal server error", code := 500,
              panicDetail := goValueText (GoValue.str "test panic") }] :=
  recovery_panic_amended panicTestHandler req0 world0 world0 (GoValue.str "test panic") rfl rfl

/-- C6: evaluating the code at the failing input (a handler panicking with
"test panic" inside Recovery with an active span): Recovery marks the span
failed but emits no log record at all — in particular no Critical record —
because the recover() inside LogPanic returns nil once Recovery's own
deferred block has already recovered the panic; whereas the helper invoked
as its own deferred recovery point (recover() returning the panic value)
does log exactly one Critical record and re-raises the panic, as the claim
describes. -/
theorem recovery_logpanic_never_logs :
    (Recovery panicTestHandler req0 worldWithSpan).1.log = []
    ∧ ((Recovery panicTestHandler req0 worldWithSpan).1.span.map SpanData.spanStatus)
        = some "Error"
    ∧ (LogPanic (some (GoValue.str "test panic")) worldWithSpan).2
        = some (GoValue.str "test panic")
    ∧ (LogPanic (some (GoValue.str "test panic")) worldWithSpan).1.log.map LogRecord.level
        = [Level.critical] :=
  ⟨rfl, rfl, rfl, rfl⟩

/-- The permissive header block leaves the wrote-header flag alone. -/
@[simp] theorem corsHeaderWrites_wroteHeader (rs : ResponseState) :
    (corsHeaderWrites rs).wroteHeader = rs.wroteHeader := rfl

/-- Looking up each of the five permissive CORS headers after the header
block finds the value the source sets. -/
theorem corsHeaderWrites_lookups (rs : ResponseState) :
    getAssoc (corsHeaderWrites rs).headers "Access-Control-Allow-Origin" = some "*"
    ∧ getAssoc (corsHeaderWrites rs).headers "Access-Control-Allow-Methods"
        = some "GET, POST, PUT, DELETE, OPTIONS"
    ∧ getAssoc (corsHeaderWrites rs).headers "Access-Control-Allow-Headers"
        = some "Accept, Content-Type, Content-Length, Accept-Encoding, X-CSRF-Token, Authorization, X-User-Email, X-User-Groups"
    ∧ getAssoc (corsHeaderWrites rs).headers "Access-Control-Allow-Credentials" = some "true"
    ∧ getAssoc (corsHeaderWrites rs).headers "Access-Control-Max-Age" = some "86400" := by
  refine ⟨?_, ?_, ?_, ?_, ?_⟩ <;>
    simp [corsHeaderWrites, getAssoc_setAssoc, getAssoc_setAssoc_ne]

/-- The shared CORS pre-state does not flip the wrote-header flag. -/
@[simp] theorem corsPre_wroteHeader (req : Request) (w : World) :
    (corsPre req w).resp.wroteHeader = w.resp.wroteHeader := by
  simp [corsPre]

/-- The shared CORS pre-state carries the permissive header block. -/
theorem corsPre_headers (req : Request) (w : World) :
    (corsPre req w).resp.headers
      = (corsHeaderWrites (w.spanAddEvent "cors.processing"
          [("cors.origin", (getAssoc req.headers "Origin").getD ""),
           ("cors.method", req.method)]).resp).headers := rfl

/-- C8: every preflight OPTIONS request through CORS is answered directly
with status 204 and the permissive CORS headers, without ever invoking the
wrapped downstream handler (the result is the same for every downstream
handler); every non-OPTIONS request gets the CORS headers set and is then
passed to the downstream handler. -/
theorem cors_preflight_and_passthrough (next : Handler) (req : Request) (w : World)
    (hfresh : w.resp.wroteHeader = false) :
    (req.method = "OPTIONS" →
        (∀ next2, CORS next2 req w = CORS next req w)
        ∧ (CORS next req w).2 = none
        ∧ (CORS next req w).1.resp.status = some 204
        ∧ getAssoc (CORS next req w).1.resp.headers "Access-Control-Allow-Origin" = some "*"
        ∧ getAssoc (CORS next req w).1.resp.headers "Access-Control-Allow-Methods"
            = some "GET, POST, PUT, DELETE, OPTIONS"
        ∧ getAssoc (CORS next req w).1.resp.headers "Access-Control-Allow-Credentials"
            = some "true"
        ∧ getAssoc (CORS next req w).1.resp.headers "Access-Control-Max-Age" = some "86400")
    ∧ (¬ req.method = "OPTIONS" →
        CORS next req w = next req (corsPre req w)
        ∧ getAssoc (corsPre req w).resp.headers "Access-Control-Allow-Origin" = some "*") := by
  constructor
  · intro hm
    have hb : ∀ nh : Handler, CORS nh req w
        = (({ corsPre req w with
              resp := ((corsPre req w).resp.setHeader "Content-Type" "text/plain").writeHeader
                204 }).spanSetAttribute "cors.preflight" "true", none) := by
      intro nh
      simp only [CORS]
      rw [if_pos hm]
    refine ⟨fun next2 => by rw [hb next2, hb next], ?_, ?_, ?_, ?_, ?_, ?_⟩ <;>
      rw [hb next] <;>
      simp [ResponseState.writeHeader, hfresh, corsPre_headers, getAssoc_setAssoc_ne,
        (corsHeaderWrites_lookups _).1, (corsHeaderWrites_lookups _).2.1,
        (corsHeaderWrites_lookups _).2.2.2.1, (corsHeaderWrites_lookups _).2.2.2.2]
  · intro hm
    constructor
    · simp only [CORS]
      rw [if_neg hm]
    · rw [corsPre_headers]
      exact (corsHeaderWrites_lookups _).1

/-- C8 witness: an OPTIONS request is answered with 204 and the permissive
origin header without reaching the handler, and a GET request reaches the
handler after the headers are set. -/
theorem cors_preflight_and_passthrough_witness :
    (CORS (terminalHandler ["h"]) reqOptions world0).1.resp.status = some 204
    ∧ getAssoc (CORS (terminalHandler ["h"]) reqOptions world0).1.resp.headers
        "Access-Control-Allow-Origin" = some "*"
    ∧ (CORS (terminalHandler ["h"]) reqOptions world0).2 = none
    ∧ CORS (terminalHandler ["h"]) req0 world0 = terminalHandler ["h"] req0 (corsPre req0 world0) :=
  ⟨((cors_preflight_and_passthrough (terminalHandler ["h"]) reqOptions world0 rfl).1 rfl).2.2.1,
   ((cors_preflight_and_passthrough (terminalHandler ["h"]) reqOptions world0 rfl).1 rfl).2.2.2.1,
   ((cors_preflight_and_passthrough (terminalHandler ["h"]) reqOptions world0 rfl).1 rfl).2.1,
   ((cors_preflight_and_passthrough (terminalHandler ["h"]) req0 world0 rfl).2 (by decide)).1⟩

/-- Validation succeeds exactly when every check of the source if-chain
passes. -/
theorem telemetry_validate_ok_iff (c : Telemetry.Config) :
    c.Validate = Except.ok () ↔
      (¬ c.ServiceName = ""
       ∧ ¬(c.EnableTracing = true ∧ c.ProjectID = "")
       ∧ ¬(c.TraceRatio < 0 ∨ c.TraceRatio > 1)
       ∧ ¬ c.MaxBatchSize ≤ 0
       ∧ ¬ c.MaxQueueSize ≤ 0) := by
  unfold Telemetry.Config.Validate
  split_ifs <;> simp_all

/-- A successful `NewProvider` means the defaulted configuration validated,
and the provider carries that defaulted configuration. -/
theorem telemetry_newProvider_ok_validate (env : Telemetry.Env) (cfg : Telemetry.Config)
    (p : Telemetry.Provider) (hok : Telemetry.NewProvider env cfg = Except.ok p) :
    (cfg.SetDefaults env).Validate = Except.ok () ∧ p.config = cfg.SetDefaults env := by
  cases hval : (cfg.SetDefaults env).Validate with
  | error e =>
    simp only [Telemetry.NewProvider, hval] at hok
    exact absurd hok (by simp)
  | ok u =>
    cases u
    simp only [Telemetry.NewProvider, hval] at hok
    refine ⟨rfl, ?_⟩
    by_cases ht : (cfg.SetDefaults env).EnableTracing = true
    · rw [if_pos ht] at hok
      rw [← Except.ok.inj hok]
    · rw [if_neg ht] at hok
      rw [← Except.ok.inj hok]

/-- A successful tracing-enabled `NewProvider` installs the sampler chosen
from the defaulted ratio. -/
theorem telemetry_newProvider_ok_sampler (env : Telemetry.Env) (cfg : Telemetry.Config)
    (p : Telemetry.Provider) (hok : Telemetry.NewProvider env cfg = Except.ok p)
    (ht : (cfg.SetDefaults env).EnableTracing = true) :
    p.sampler = some (Telemetry.samplerFor (cfg.SetDefaults env).TraceRatio) := by
  cases hval : (cfg.SetDefaults env).Validate with
  | error e =>
    simp only [Telemetry.NewProvider, hval] at hok
    exact absurd hok (by simp)
  | ok u =>
    cases u
    simp only [Telemetry.NewProvider, hval] at hok
    rw [if_pos ht] at hok
    rw [← Except.ok.inj hok]

/-- C3 counterexample: a valid tracing-enabled configuration with sampling
ratio exactly 0 is accepted by `NewProvider`, but the installed sampler is
the probabilistic trace-identifier-ratio sampler at the silently defaulted
ratio 0.1 — not a never-sample sampler — and the trace with identifier 0 is
sampled under it. -/
theorem sampler_ratio_zero_counterexample :
    cfgRatio0.TraceRatio = 0
    ∧ Telemetry.NewProvider env0 cfgRatio0 = Except.ok pRatio0
    ∧ pRatio0.sampler ≠ some Telemetry.Sampler.neverSample
    ∧ Telemetry.Sampler.shouldSample (Telemetry.Sampler.traceIDRatioBased (mkRat 1 10)) 0
        = true := by
  refine ⟨rfl, rfl, by decide, by decide⟩

/-- C3 (amended): for every configuration accepted by `NewProvider` with
tracing enabled, a sampling ratio of 1 installs the always-sample sampler,
under which every span is sampled; a sampling ratio of 0 is silently
defaulted to 0.1 before validation, so the trace-identifier-ratio sampler
at ratio 0.1 is installed instead of a never-sample sampler, and spans (for
example the trace with identifier 0) can still be sampled. -/
theorem sampler_policy_amended (env : Telemetry.Env) (cfg : Telemetry.Config)
    (p : Telemetry.Provider) (ht : cfg.EnableTracing = true)
    (hok : Telemetry.NewProvider env cfg = Except.ok p) :
    (cfg.TraceRatio = 1 →
        p.sampler = some Telemetry.Sampler.alwaysSample
        ∧ ∀ tid, Telemetry.Sampler.shouldSample Telemetry.Sampler.alwaysSample tid = true)
    ∧ (cfg.TraceRatio = 0 →
        p.sampler = some (Telemetry.Sampler.traceIDRatioBased (mkRat 1 10))
        ∧ Telemetry.Sampler.shouldSample (Telemetry.Sampler.traceIDRatioBased (mkRat 1 10)) 0
            = true) := by
  have ht' : (cfg.SetDefaults env).EnableTracing = true := ht
  have hs := telemetry_newProvider_ok_sampler env cfg p hok ht'
  constructor
  · intro h1
    have hr : (cfg.SetDefaults env).TraceRatio = cfg.TraceRatio := by
      show (if cfg.TraceRatio = 0 then mkRat 1 10 else cfg.TraceRatio) = cfg.TraceRatio
      rw [if_neg (by rw [h1]; exact one_ne_zero)]
    rw [hr, h1] at hs
    refine ⟨?_, fun tid => rfl⟩
    rw [hs]
    show some (Telemetry.samplerFor 1) = _
    unfold Telemetry.samplerFor
    rw [if_pos (le_refl (1 : ℚ))]
  · intro h0
    have hr : (cfg.SetDefaults env).TraceRatio = mkRat 1 10 := by
      show (if cfg.TraceRatio = 0 then mkRat 1 10 else cfg.TraceRatio) = mkRat 1 10
      rw [if_pos h0]
    rw [hr] at hs
    refine ⟨?_, by decide⟩
    rw [hs]
    show some (Telemetry.samplerFor (mkRat 1 10)) = _
    unfold Telemetry.samplerFor
    rw [if_neg (by decide), if_neg (by decide)]

/-- C3 witness: the ratio-1 configuration installs the always sampler and
the trace with identifier 7 is sampled. -/
theorem sampler_policy_amended_witness :
    pRatio1.sampler = some Telemetry.Sampler.alwaysSample
    ∧ Telemetry.Sampler.shouldSample Telemetry.Sampler.alwaysSample 7 = true :=
  ⟨((sampler_policy_amended env0 cfgRatio1 pRatio1 rfl rfl).1 rfl).1,
   ((sampler_policy_amended env0 cfgRatio1 pRatio1 rfl rfl).1 rfl).2 7⟩

/-- C9 counterexample: a configuration whose batch size is 0 (non-positive)
is not rejected: `SetDefaults` runs before `Validate` and silently replaces
the zero by 512, so `NewProvider` succeeds. -/
theorem newprovider_zero_batch_counterexample :
    cfgZeroBatch.MaxBatchSize ≤ 0
    ∧ Telemetry.NewProvider env0 cfgZeroBatch = Except.ok pZeroBatch :=
  ⟨by decide, rfl⟩

/-- C9 (amended): provider construction fails for every configuration with
a negative batch size, a negative queue size, or a sampling ratio outside
the unit interval; but a batch or queue size of exactly 0 is silently
defaulted (to 512 and 2048 respectively) before validation, so such a
configuration is accepted rather than rejected. -/
theorem newprovider_validation_amended (env : Telemetry.Env) (cfg : Telemetry.Config) :
    ((cfg.TraceRatio < 0 ∨ cfg.TraceRatio > 1
        ∨ cfg.MaxBatchSize < 0 ∨ cfg.MaxQueueSize < 0) →
      ∀ p : Telemetry.Provider, Telemetry.NewProvider env cfg ≠ Except.ok p)
    ∧ (∀ p : Telemetry.Provider, cfg.MaxBatchSize = 0 →
        Telemetry.NewProvider env cfg = Except.ok p → p.config.MaxBatchSize = 512)
    ∧ (∀ p : Telemetry.Provider, cfg.MaxQueueSize = 0 →
        Telemetry.NewProvider env cfg = Except.ok p → p.config.MaxQueueSize = 2048) := by
  refine ⟨?_, ?_, ?_⟩
  · intro hbad p hok
    obtain ⟨hval, hcfg⟩ := telemetry_newProvider_ok_validate env cfg p hok
    have hfields := (telemetry_validate_ok_iff _).mp hval
    have hratio : (cfg.SetDefaults env).TraceRatio
        = if cfg.TraceRatio = 0 then mkRat 1 10 else cfg.TraceRatio := rfl
    have hbatch : (cfg.SetDefaults env).MaxBatchSize
        = if cfg.MaxBatchSize = 0 then 512 else cfg.MaxBatchSize := rfl
    have hqueue : (cfg.SetDefaults env).MaxQueueSize
        = if cfg.MaxQueueSize = 0 then 2048 else cfg.MaxQueueSize := rfl
    rcases hbad with h | h | h | h
    · rw [hratio, if_neg (by intro h0; rw [h0] at h; exact absurd h (lt_irrefl 0))] at hfields
      exact hfields.2.2.1 (Or.inl h)
    · rw [hratio, if_neg (by intro h0; rw [h0] at h; exact absurd h (by norm_num))] at hfields
      exact hfields.2.2.1 (Or.inr h)
    · rw [hbatch, if_neg (by omega)] at hfields
      exact hfields.2.2.2.1 (by omega)
    · rw [hqueue, if_neg (by omega)] at hfields
      exact hfields.2.2.2.2 (by omega)
  · intro p h0 hok
    obtain ⟨hval, hcfg⟩ := telemetry_newProvider_ok_validate env cfg p hok
    rw [hcfg]
    show (if cfg.MaxBatchSize = 0 then 512 else cfg.MaxBatchSize) = 512
    rw [if_pos h0]
  · intro p h0 hok
    obtain ⟨hval, hcfg⟩ := telemetry_newProvider_ok_validate env cfg p hok
    rw [hcfg]
    show (if cfg.MaxQueueSize = 0 then 2048 else cfg.MaxQueueSize) = 2048
    rw [if_pos h0]

/-- C9 witness: the out-of-range ratio 2 is rejected, and the zero batch
size configuration is accepted with the defaulted batch size 512. -/
theorem newprovider_validation_amended_witness :
    Telemetry.NewProvider env0 cfgRatio2 ≠ Except.ok pZeroBatch
    ∧ pZeroBatch.config.MaxBatchSize = 512 :=
  ⟨(newprovider_validation_amended env0 cfgRatio2).1 (Or.inr (Or.inl (by decide))) pZeroBatch,
   (newprovider_validation_amended env0 cfgZeroBatch).2.1 pZeroBatch rfl rfl⟩
